import Mathlib

/-!
Shallow embedding of the NoTracePDF zero-trace request-processing core:
upload validation (`app/utils/file_utils.py`), the PDF page operations
(`app/services/pdf_service.py`), the HTTP handlers that wire them together
(`app/api/v1/pdf.py`), the privacy middleware chain
(`app/middleware/cache_headers.py`, `app/middleware/privacy_logging.py`)
and the cleanup/signal module (`app/core/cleanup.py`).

Raw bytes are modelled as `List Nat` (one entry per byte), Python strings as
Lean `String`, Python `None`-able values as `Option`, and raised exceptions as
`Except` errors.
-/

namespace NoTracePDF

/-- A byte string: one `Nat` per byte. -/
abbrev Bytes := List Nat

/-- `b'%PDF-'`, the 5-byte PDF header checked by `validate_pdf`. -/
def pdfMagic : Bytes := [0x25, 0x50, 0x44, 0x46, 0x2D]

/-- `settings.MAX_FILE_SIZE_MB` (`app/core/config.py`, default 100). -/
def MAX_FILE_SIZE_MB : Nat := 100

/-- `settings.MAX_UPLOAD_SIZE_BYTES = MAX_FILE_SIZE_MB * 1024 * 1024`. -/
def MAX_UPLOAD_SIZE_BYTES : Nat := MAX_FILE_SIZE_MB * 1024 * 1024

/-- A FastAPI `UploadFile`: declared content type, client filename, raw body.
`content_type` and `filename` are `None`-able in Starlette, hence `Option`. -/
structure UploadFile where
  content_type : Option String
  filename : Option String
  content : Bytes
deriving Repr, DecidableEq

/-- `FileValidationError(HTTPException)`: carries an HTTP status code and a
human-readable detail string. -/
structure FileValidationError where
  status_code : Nat
  detail : String
deriving Repr, DecidableEq

/-- Python `x or default` for an optional string (`None` and `""` are falsy). -/
def pyOrStr (o : Option String) (default : String) : String :=
  match o with
  | none => default
  | some s => if s = "" then default else s

/-- Python `str.lower()` (ASCII case folding, as used on filenames). -/
def pyLower (s : String) : String :=
  ⟨s.data.map Char.toLower⟩

/-- Python `str.endswith(t)`. -/
def pyEndsWith (s t : String) : Bool :=
  List.isSuffixOf t.data s.data

/-- Split a character list at every occurrence of `c` (Python
`str.split(c)` semantics: n separators yield n+1 parts). -/
def splitOnChar (c : Char) : List Char → List (List Char)
  | [] => [[]]
  | x :: xs =>
    let r := splitOnChar c xs
    if x = c then [] :: r
    else
      match r with
      | [] => [[x]]
      | y :: ys => (x :: y) :: ys

/-- Join string parts with a separator (Python `sep.join(parts)`). -/
def joinWith (sep : String) : List String → String
  | [] => ""
  | [x] => x
  | x :: xs => x ++ sep ++ joinWith sep xs

/-- `ALLOWED_PDF_TYPES = {"application/pdf"}` membership test on the declared
content type (`None` is not a member). -/
def allowedPdfType (ct : Option String) : Bool :=
  ct = some "application/pdf"

/-- `ALLOWED_IMAGE_TYPES` membership test on the declared content type. -/
def allowedImageType (ct : Option String) : Bool :=
  ct = some "image/jpeg" || ct = some "image/png" || ct = some "image/gif" ||
  ct = some "image/webp" || ct = some "image/bmp"

/-- The last path component of a string, as `pathlib.Path(...).name`
(split on `/` and keep the final component). -/
def pathName (s : String) : String :=
  ⟨(splitOnChar '/' s.data).getLastD s.data⟩

/-- `pathlib.Path(name).stem`: the final component without its last dot-suffix.
A leading-dot-only name such as `".bashrc"` keeps the whole name. -/
def pathStem (s : String) : String :=
  let nm := pathName s
  let parts := splitOnChar '.' nm.data
  match parts with
  | [] => nm
  | [_] => nm
  | first :: _ =>
    if first = [] ∧ parts.length = 2 then nm
    else ⟨(List.intersperse ['.'] parts.dropLast).flatten⟩

/-- `pathlib.Path(name).suffix`: the final component's last dot-suffix
including the dot, `""` when there is none (as for `".bashrc"`). -/
def pathSuffix (s : String) : String :=
  let nm := pathName s
  let parts := splitOnChar '.' nm.data
  match parts with
  | [] => ""
  | [_] => ""
  | first :: _ =>
    if first = [] ∧ parts.length = 2 then ""
    else ⟨'.' :: parts.getLastD []⟩

/-- `name.rsplit('.', 1)[0]`: everything before the last dot (the whole string
when there is no dot). Used by the API handlers to build download names. -/
def rsplitDotFirst (s : String) : String :=
  let parts := splitOnChar '.' s.data
  match parts with
  | [] => s
  | [_] => s
  | _ => ⟨(List.intersperse ['.'] parts.dropLast).flatten⟩

/--
`validate_pdf` (`app/utils/file_utils.py:58-105`).

Checks, in source order, short-circuiting on the first failure:
content-type (with filename-extension fallback, 415), size (413),
emptiness (400), `%PDF-` magic bytes (400); returns the body on success.
-/
def validate_pdf (file : UploadFile) : Except FileValidationError Bytes := do
  if ¬ allowedPdfType file.content_type then
    let filename := file.filename.getD ""
    if ¬ pyEndsWith (pyLower filename) ".pdf" then
      throw { status_code := 415,
              detail := "Invalid file type: " ++
                (file.content_type.getD "None") ++ ". Expected PDF." }
  let content := file.content
  if content.length > MAX_UPLOAD_SIZE_BYTES then
    throw { status_code := 413,
            detail := "File too large. Maximum size is 100MB." }
  if content.length = 0 then
    throw { status_code := 400, detail := "Empty file provided." }
  if ¬ pdfMagic.isPrefixOf content then
    throw { status_code := 400,
            detail := "Invalid PDF file. File does not start with PDF header." }
  return content

/-- `detect_image_format` (`app/utils/file_utils.py:179-200`): magic-byte
sniffing returning `png`, `jpeg`, `gif`, `webp`, `bmp` or `unknown`. -/
def detect_image_format (content : Bytes) : String :=
  if List.isPrefixOf [0x89, 0x50, 0x4E, 0x47, 0x0D, 0x0A, 0x1A, 0x0A] content then "png"
  else if List.isPrefixOf [0xFF, 0xD8, 0xFF] content then "jpeg"
  else if List.isPrefixOf [0x47, 0x49, 0x46, 0x38, 0x37, 0x61] content ∨
          List.isPrefixOf [0x47, 0x49, 0x46, 0x38, 0x39, 0x61] content then "gif"
  else if List.isPrefixOf [0x52, 0x49, 0x46, 0x46] content ∧
          (content.drop 8).take 4 = [0x57, 0x45, 0x42, 0x50] then "webp"
  else if List.isPrefixOf [0x42, 0x4D] content then "bmp"
  else "unknown"

/-- Extension allow-list used by `validate_image`'s fallback. -/
def imageExtOk (ext : String) : Bool :=
  ext = ".jpg" || ext = ".jpeg" || ext = ".png" || ext = ".gif" ||
  ext = ".webp" || ext = ".bmp"

/--
`validate_image` (`app/utils/file_utils.py:108-152`).

Checks content type (with extension fallback, 415), size (413), emptiness
(400), then *detects* the format from magic bytes and returns it alongside
the body; an unrecognized signature yields `"unknown"` without raising.
-/
def validate_image (file : UploadFile) :
    Except FileValidationError (Bytes × String) := do
  if ¬ allowedImageType file.content_type then
    let filename := file.filename.getD ""
    let ext := pyLower (pathSuffix filename)
    if ¬ imageExtOk ext then
      throw { status_code := 415,
              detail := "Invalid file type: " ++
                (file.content_type.getD "None") ++ ". Expected image." }
  let content := file.content
  if content.length > MAX_UPLOAD_SIZE_BYTES then
    throw { status_code := 413,
            detail := "File too large. Maximum size is 100MB." }
  if content.length = 0 then
    throw { status_code := 400, detail := "Empty file provided." }
  let detected := detect_image_format content
  return (content, detected)

/-- `generate_filename` (`app/utils/file_utils.py:203-219`): the download name
is the *original* name's stem, an underscore, the operation, an optional
suffix, and `.pdf`. -/
def generate_filename (operation : String) (original_name : String)
    (suffix : String := "") : String :=
  let base := pathStem original_name
  if suffix ≠ "" then base ++ "_" ++ operation ++ "_" ++ suffix ++ ".pdf"
  else base ++ "_" ++ operation ++ ".pdf"

/-! ## PDF page operations (`app/services/pdf_service.py`)

A parsed PDF document is modelled by its page list. For `rotate_pages` a page
is its `/Rotate` attribute (an `Int`); for the structural operations
(`split_pdf`, `delete_pages`) pages are opaque values of a type `α`.
Raised service exceptions (`InvalidPageError`, `InvalidRotationError`,
`EmptyResultError`, `ValueError`) become `PdfError` values. -/

/-- Typed service-layer errors raised by `app/services/pdf_service.py` and
`app/utils/file_utils.py`. -/
inductive PdfError where
  | invalidPage (msg : String)
  | invalidRotation (msg : String)
  | emptyResult (msg : String)
  | valueError (msg : String)
deriving Repr, DecidableEq

/-- `validate_page_numbers` (`app/utils/file_utils.py:260-275`): raises
`InvalidPageError` on the first 1-indexed page outside `[1, total_pages]`. -/
def validate_page_numbers (pages : List Int) (total_pages : Nat) :
    Except PdfError Unit :=
  match pages.find? (fun p => p < 1 || p > (total_pages : Int)) with
  | some p => .error (.invalidPage ("Page " ++ toString p ++
      " is out of range. PDF has " ++ toString total_pages ++ " pages."))
  | none => .ok ()

/-- Python `sorted` on a list of ints (ascending). -/
def pySorted (l : List Int) : List Int :=
  List.insertionSort (· ≤ ·) l

/-- Python `sorted(set(l), reverse=True)`: distinct values, descending. -/
def pySortedSetDesc (l : List Int) : List Int :=
  List.insertionSort (fun a b => b ≤ a) l.dedup

/-- `SplitMode` (`app/schemas/pdf.py`): `range`, `every_n`, `specific`. -/
inductive SplitMode where
  | range
  | every_n
  | specific
deriving Repr, DecidableEq

/--
`split_pdf` (`app/services/pdf_service.py:50-132`), acting on the parsed
page list `pdf`. Returns the `(filename, page list)` output entries.

* `range` mode copies pages `start .. end` (1-indexed, `range(start-1, end)`).
* `every_n` mode chunks the document into runs of `n_pages`
  (`for i in range(0, total_pages, n_pages)` producing `chunk_i` outputs).
* `specific` mode copies `pdf.pages[p - 1]` for `p` in `sorted(pages)` into a
  single output.
-/
def split_pdf (pdf : List α) (mode : SplitMode)
    (start stop n_pages : Option Int) (pages : Option (List Int)) :
    Except PdfError (List (String × List α)) := do
  let total_pages := pdf.length
  match mode with
  | .range =>
    match start, stop with
    | some s, some e => do
      let _ ← validate_page_numbers [s, e] total_pages
      let chunk := ((List.range' (s - 1).toNat (e - s + 1).toNat).filterMap
        fun i => pdf.get? i)
      return [("pages_" ++ toString s ++ "-" ++ toString e ++ ".pdf", chunk)]
    | _, _ => .error (.valueError "start and end required for range mode")
  | .every_n =>
    match n_pages with
    | some n =>
      if n < 1 then .error (.valueError "n_pages must be >= 1")
      else
        let nN := n.toNat
        let numChunks := (total_pages + nN - 1) / nN
        return (List.range numChunks).map fun i =>
          ("chunk_" ++ toString (i + 1) ++ ".pdf", (pdf.drop (i * nN)).take nN)
    | none => .error (.valueError "n_pages must be >= 1")
  | .specific =>
    match pages with
    | some ps =>
      if ps = [] then .error (.valueError "pages required for specific mode")
      else do
        let _ ← validate_page_numbers ps total_pages
        let chunk := (pySorted ps).filterMap fun p => pdf.get? (p - 1).toNat
        if ps.length = 1 then
          return [("page_" ++ toString (ps.headD 0) ++ ".pdf", chunk)]
        else
          let pagesStr := joinWith "_" ((pySorted ps).map toString)
          return [("pages_" ++ pagesStr ++ ".pdf", chunk)]
    | none => .error (.valueError "pages required for specific mode")

/-- The page-selection argument of `rotate_pages`: the string `'all'` or a
JSON list of 1-indexed page numbers. -/
inductive PagesArg where
  | all
  | specific (pages : List Int)
deriving Repr, DecidableEq

/-- `[90, 180, 270, -90, -180, -270]`, the `valid_degrees` list of
`rotate_pages`. -/
def valid_degrees : List Int := [90, 180, 270, -90, -180, -270]

/-- `pikepdf` `page.rotate(degrees, relative=True)` on the page's `/Rotate`
value: add and normalize into `[0, 360)`. -/
def rotatePage (r degrees : Int) : Int := (r + degrees) % 360

/--
`rotate_pages` (`app/services/pdf_service.py:135-175`), acting on the list of
page `/Rotate` values. Rejects a `degrees` outside `valid_degrees` with
`InvalidRotationError`; for `'all'` rotates every page, otherwise validates
the 1-indexed page list and rotates each listed page in turn.
-/
def rotate_pages (doc : List Int) (pages : PagesArg) (degrees : Int) :
    Except PdfError (List Int) := do
  if ¬ degrees ∈ valid_degrees then
    throw (.invalidRotation
      "Degrees must be one of [90, 180, 270, -90, -180, -270]")
  match pages with
  | .all => return doc.map (fun r => rotatePage r degrees)
  | .specific ps => do
    let _ ← validate_page_numbers ps doc.length
    return ps.foldl (fun acc p =>
      let i := (p - 1).toNat
      acc.set i (rotatePage (acc.getD i 0) degrees)) doc

/--
`delete_pages` (`app/services/pdf_service.py:227-267`), acting on the parsed
page list. Validates the 1-indexed page numbers, raises `EmptyResultError`
when `len(pages) >= total_pages` (note: *before* deduplicating), then deletes
the distinct pages in descending order.
-/
def delete_pages (pdf : List α) (pages : List Int) :
    Except PdfError (List α) := do
  let total_pages := pdf.length
  let _ ← validate_page_numbers pages total_pages
  if pages.length ≥ total_pages then
    throw (.emptyResult "Cannot delete all pages from PDF")
  let pages_to_delete := pySortedSetDesc pages
  return pages_to_delete.foldl (fun acc p => acc.eraseIdx (p - 1).toNat) pdf

/-! ## HTTP handlers (`app/api/v1/pdf.py`)

A handler outcome is reduced to the observables the claims speak about: the
HTTP status code, the `Content-Disposition` attachment filename (when a file
is returned), and how many times the transform function was invoked.
`pikepdf.Pdf.open` on validated bytes is abstracted as a `parse` function
from bytes to the parsed page list. -/

/-- Observable outcome of an API handler. -/
structure ApiResponse where
  status : Nat
  attachmentFilename : Option String
  transformCalls : Nat
deriving Repr, DecidableEq

/-- `merge_pdfs` (`app/services/pdf_service.py:25-47`) on parsed page lists:
pages of every input, in order, concatenated into one document. -/
def merge_pdfs (docs : List (List α)) : List α :=
  docs.flatten

/-- The loop `for file in files: pdf_buffers.append(await validate_pdf(file))`
of `api_merge_pdfs`: validates in order, short-circuiting on the first
`FileValidationError`. -/
def validateAllPdf : List UploadFile → Except FileValidationError (List Bytes)
  | [] => .ok []
  | f :: fs => do
    let c ← validate_pdf f
    let cs ← validateAllPdf fs
    return (c :: cs)

/-- `files[0].filename or "document"` in `api_merge_pdfs`. -/
def firstFilename (files : List UploadFile) : String :=
  pyOrStr (files.headD ⟨none, none, []⟩).filename "document"

/-- `base_name = file.filename.rsplit('.', 1)[0] if file.filename else
"document"`, the pattern shared by the non-merge handlers. -/
def handlerBaseName (file : UploadFile) : String :=
  match file.filename with
  | some s => if s = "" then "document" else rsplitDotFirst s
  | none => "document"

/--
`api_merge_pdfs` (`app/api/v1/pdf.py:61-101`): requires at least two files
(400 otherwise), validates each with `validate_pdf` (mapping a
`FileValidationError` to its status), then — only when every file validated —
invokes the merge transform once and answers 200 with
`Content-Disposition` name `generate_filename("merged", files[0].filename or
"document")`.
-/
def api_merge_pdfs (files : List UploadFile) : ApiResponse :=
  if files.length < 2 then
    { status := 400, attachmentFilename := none, transformCalls := 0 }
  else
    match validateAllPdf files with
    | .error e =>
      { status := e.status_code, attachmentFilename := none,
        transformCalls := 0 }
    | .ok _ =>
      { status := 200,
        attachmentFilename := some (generate_filename "merged"
          (firstFilename files)),
        transformCalls := 1 }

/--
`api_rotate_pages` (`app/api/v1/pdf.py:183-223`): validates the upload,
invokes `rotate_pages` on the parsed document, and maps outcomes to HTTP:
a `FileValidationError` keeps its status; a service exception (including
`InvalidRotationError`) is caught only by the generic `except Exception`
handler and becomes 500; success answers 200 with filename
`base_name + "_rotated.pdf"`.
-/
def api_rotate_pages (parse : Bytes → List Int) (file : UploadFile)
    (pages : PagesArg) (degrees : Int) : ApiResponse :=
  match validate_pdf file with
  | .error e =>
    { status := e.status_code, attachmentFilename := none, transformCalls := 0 }
  | .ok content =>
    match rotate_pages (parse content) pages degrees with
    | .error _ =>
      { status := 500, attachmentFilename := none, transformCalls := 1 }
    | .ok _ =>
      { status := 200,
        attachmentFilename := some (handlerBaseName file ++ "_rotated.pdf"),
        transformCalls := 1 }

/--
`api_delete_pages` (`app/api/v1/pdf.py:270-309`): validates the upload,
invokes `delete_pages`, and maps `InvalidPageError` and `EmptyResultError`
to 400, any other exception to 500, success to 200 with filename
`base_name + "_modified.pdf"`.
-/
def api_delete_pages (parse : Bytes → List Nat) (file : UploadFile)
    (pages : List Int) : ApiResponse :=
  match validate_pdf file with
  | .error e =>
    { status := e.status_code, attachmentFilename := none, transformCalls := 0 }
  | .ok content =>
    match delete_pages (parse content) pages with
    | .error (.invalidPage _) =>
      { status := 400, attachmentFilename := none, transformCalls := 1 }
    | .error (.emptyResult _) =>
      { status := 400, attachmentFilename := none, transformCalls := 1 }
    | .error _ =>
      { status := 500, attachmentFilename := none, transformCalls := 1 }
    | .ok _ =>
      { status := 200,
        attachmentFilename := some (handlerBaseName file ++ "_modified.pdf"),
        transformCalls := 1 }

/-! ## Middleware chain (`app/middleware/`)

Responses carry a status and a case-insensitive header multimap (modelled as
an association list where setting a header replaces earlier entries, matching
Starlette's `MutableHeaders.__setitem__`). A downstream handler either
returns a `Response` or raises, modelled as `Except String Response`. -/

/-- An HTTP response: status code plus headers. -/
structure Response where
  status : Nat
  headers : List (String × String)
deriving Repr, DecidableEq

/-- Drop every entry whose name equals `k` case-insensitively. -/
def removeHeader (hs : List (String × String)) (k : String) :
    List (String × String) :=
  match hs with
  | [] => []
  | p :: t =>
    if pyLower p.1 = pyLower k then removeHeader t k
    else p :: removeHeader t k

/-- Starlette `response.headers[k] = v`: replace any entry with the same
(case-insensitive) name. -/
def setHeader (hs : List (String × String)) (k v : String) :
    List (String × String) :=
  (k, v) :: removeHeader hs k

/-- Case-insensitive header lookup. -/
def headerGet (hs : List (String × String)) (k : String) : Option String :=
  match hs with
  | [] => none
  | p :: t => if pyLower p.1 = pyLower k then some p.2 else headerGet t k

/-- `CacheHeadersMiddleware.dispatch` (`app/middleware/cache_headers.py:30-41`)
applied to the response produced by `call_next`: unconditionally set the four
privacy cache headers. -/
def cacheHeadersDispatch (resp : Response) : Response :=
  let h1 := setHeader resp.headers "Cache-Control"
    "no-store, no-cache, must-revalidate, private"
  let h2 := setHeader h1 "Pragma" "no-cache"
  let h3 := setHeader h2 "Expires" "0"
  let h4 := setHeader h3 "X-Content-Type-Options" "nosniff"
  { resp with headers := h4 }

/-- One structured line emitted by the privacy logger. -/
structure LogLine where
  request_id : String
  method : String
  path : String
  status : Nat
  duration_ms : Nat
deriving Repr, DecidableEq

/--
`PrivacyLoggingMiddleware.dispatch`
(`app/middleware/privacy_logging.py:52-82`): the body runs `response = await
call_next(request)` with *no* surrounding `try`, then logs one line and adds
`X-Request-ID`. When the downstream call raises, the function unwinds before
the `logger.info` call: the exception propagates and nothing is logged.
Returns the outcome together with the lines logged.
-/
def privacyLoggingDispatch (request_id method path : String)
    (downstream : Except String Response) (elapsed_ms : Nat) :
    Except String Response × List LogLine :=
  match downstream with
  | .ok resp =>
    (.ok { resp with headers := setHeader resp.headers "X-Request-ID" request_id },
     [{ request_id := request_id, method := method, path := path,
        status := resp.status, duration_ms := elapsed_ms }])
  | .error e => (.error e, [])

/--
The middleware stack of `app/main.py:48-60`: `CacheHeadersMiddleware` is
added last, so it is outermost and post-processes whatever the
`PrivacyLoggingMiddleware` layer returns. An exception propagating out of the
privacy layer also skips the cache layer's header assignment.
-/
def appDispatch (request_id method path : String)
    (inner : Except String Response) (elapsed_ms : Nat) :
    Except String Response × List LogLine :=
  let r := privacyLoggingDispatch request_id method path inner elapsed_ms
  match r.1 with
  | .ok resp => (.ok (cacheHeadersDispatch resp), r.2)
  | .error e => (.error e, r.2)

/-! ## Cleanup and shutdown (`app/core/cleanup.py`)

The module's mutable state (`_active_temp_resources`, plus the observable
log and exit effects) is threaded explicitly. -/

/-- State of the cleanup module: the tracked resource set (a duplicate-free
list), the number of `cleanup_temp_files` invocations so far, the
`resource_count` values logged by each invocation, the exit codes passed to
`sys.exit`, and the signal numbers logged by `_signal_handler`. -/
structure CleanupState where
  activeResources : List String
  sweepInvocations : Nat
  loggedCounts : List Nat
  exitCalls : List Nat
  signalsLogged : List Nat
deriving Repr, DecidableEq

/--
`cleanup_temp_files` (`app/core/cleanup.py:22-45`): logs the tracked resource
count and clears the set. The function is annotated `-> None` and has no
`return` statement, so its Python return value is `None`; that value is the
second component (always `none`).
-/
def cleanup_temp_files (s : CleanupState) : CleanupState × Option Nat :=
  if s.activeResources ≠ [] then
    ({ s with activeResources := [],
              sweepInvocations := s.sweepInvocations + 1,
              loggedCounts := s.loggedCounts ++ [s.activeResources.length] },
     none)
  else
    ({ s with sweepInvocations := s.sweepInvocations + 1,
              loggedCounts := s.loggedCounts ++ [0] },
     none)

/-- `register_resource` (`app/core/cleanup.py:48-50`): `set.add`. -/
def register_resource (resource_id : String) (s : CleanupState) : CleanupState :=
  if resource_id ∈ s.activeResources then s
  else { s with activeResources := s.activeResources ++ [resource_id] }

/-- `unregister_resource` (`app/core/cleanup.py:53-55`): `set.discard`. -/
def unregister_resource (resource_id : String) (s : CleanupState) :
    CleanupState :=
  { s with activeResources := s.activeResources.filter (· ≠ resource_id) }

/--
`_signal_handler` (`app/core/cleanup.py:58-71`): logs the signal, invokes
`cleanup_temp_files`, then calls `sys.exit(0)`. There is no guard flag of any
kind in the module; every invocation runs the sweep again.
-/
def signal_handler (signum : Nat) (s : CleanupState) : CleanupState :=
  let s1 := { s with signalsLogged := s.signalsLogged ++ [signum] }
  let s2 := (cleanup_temp_files s1).1
  { s2 with exitCalls := s2.exitCalls ++ [0] }

deriving instance DecidableEq for Except

/-! ## Helper lemmas -/

/-- Setting a header makes it retrievable with that value. -/
theorem headerGet_setHeader_self (hs : List (String × String)) (k v : String) :
    headerGet (setHeader hs k v) k = some v := by
  simp [headerGet, setHeader]

/-- Removing entries named `k` does not change lookup of a name other
than `k`. -/
theorem headerGet_removeHeader_ne (hs : List (String × String)) (k k' : String)
    (h : pyLower k' ≠ pyLower k) :
    headerGet (removeHeader hs k) k' = headerGet hs k' := by
  induction hs with
  | nil => rfl
  | cons a t ih =>
    by_cases ha : pyLower a.1 = pyLower k
    · have hne : ¬ pyLower a.1 = pyLower k' := fun hc => h (hc ▸ ha ▸ rfl)
      rw [removeHeader, if_pos ha, ih, headerGet, if_neg hne]
    · by_cases hm : pyLower a.1 = pyLower k'
      · rw [removeHeader, if_neg ha, headerGet, if_pos hm, headerGet, if_pos hm]
      · rw [removeHeader, if_neg ha, headerGet, if_neg hm, headerGet, if_neg hm,
            ih]

/-- Setting a header does not change lookup of a different name. -/
theorem headerGet_setHeader_ne (hs : List (String × String)) (k v k' : String)
    (h : pyLower k' ≠ pyLower k) :
    headerGet (setHeader hs k v) k' = headerGet hs k' := by
  rw [setHeader, headerGet, if_neg (fun hc => h hc.symm),
      headerGet_removeHeader_ne _ _ _ h]

/-- The four cache headers after `cacheHeadersDispatch`, for any response. -/
theorem cacheHeadersDispatch_headers (resp : Response) :
    headerGet (cacheHeadersDispatch resp).headers "Cache-Control" =
        some "no-store, no-cache, must-revalidate, private" ∧
    headerGet (cacheHeadersDispatch resp).headers "Pragma" = some "no-cache" ∧
    headerGet (cacheHeadersDispatch resp).headers "Expires" = some "0" ∧
    headerGet (cacheHeadersDispatch resp).headers "X-Content-Type-Options" =
        some "nosniff" := by
  unfold cacheHeadersDispatch
  refine ⟨?_, ?_, ?_, ?_⟩
  · rw [headerGet_setHeader_ne _ _ _ _ (by decide),
        headerGet_setHeader_ne _ _ _ _ (by decide),
        headerGet_setHeader_ne _ _ _ _ (by decide),
        headerGet_setHeader_self]
  · rw [headerGet_setHeader_ne _ _ _ _ (by decide),
        headerGet_setHeader_ne _ _ _ _ (by decide),
        headerGet_setHeader_self]
  · rw [headerGet_setHeader_ne _ _ _ _ (by decide),
        headerGet_setHeader_self]
  · rw [headerGet_setHeader_self]

/-! ## Claim theorems -/

/--
**C1** (confirmed). For every HTTP response produced by the app's middleware
stack — success or error status, any route — the response headers contain
`Cache-Control: no-store, no-cache, must-revalidate, private`,
`Pragma: no-cache`, `Expires: 0` and `X-Content-Type-Options: nosniff`:
`CacheHeadersMiddleware` is outermost and sets all four unconditionally on
whatever response comes back.
-/
theorem c1_no_cache_invariant (request_id method path : String)
    (inner : Except String Response) (elapsed_ms : Nat) (resp : Response)
    (h : (appDispatch request_id method path inner elapsed_ms).1 = .ok resp) :
    headerGet resp.headers "Cache-Control" =
        some "no-store, no-cache, must-revalidate, private" ∧
    headerGet resp.headers "Pragma" = some "no-cache" ∧
    headerGet resp.headers "Expires" = some "0" ∧
    headerGet resp.headers "X-Content-Type-Options" = some "nosniff" := by
  cases inner with
  | error e => simp [appDispatch, privacyLoggingDispatch] at h
  | ok r =>
    have hr : resp = cacheHeadersDispatch
        { r with headers := setHeader r.headers "X-Request-ID" request_id } := by
      simpa [appDispatch, privacyLoggingDispatch] using h.symm
    rw [hr]
    exact cacheHeadersDispatch_headers _

/-- Witness for C1: a concrete 200 response on a concrete route carries the
four headers. -/
theorem c1_witness :
    headerGet (cacheHeadersDispatch
        { status := 200, headers := setHeader [] "X-Request-ID" "abc" }).headers
        "Cache-Control" =
      some "no-store, no-cache, must-revalidate, private" ∧
    headerGet (cacheHeadersDispatch
        { status := 200, headers := setHeader [] "X-Request-ID" "abc" }).headers
        "Pragma" = some "no-cache" ∧
    headerGet (cacheHeadersDispatch
        { status := 200, headers := setHeader [] "X-Request-ID" "abc" }).headers
        "Expires" = some "0" ∧
    headerGet (cacheHeadersDispatch
        { status := 200, headers := setHeader [] "X-Request-ID" "abc" }).headers
        "X-Content-Type-Options" = some "nosniff" :=
  c1_no_cache_invariant "abc" "GET" "/health" (.ok { status := 200, headers := [] })
    5 _ (by decide)

/--
**C2 counterexample.** The claim says that when the downstream handler raises
before producing a response, the privacy logging middleware still emits
exactly one structured log line. On a concrete request whose downstream call
raises, the middleware emits zero log lines: the body has no `try` around
`await call_next(request)`, so the `logger.info` call is never reached.
-/
theorem c2_counterexample :
    (privacyLoggingDispatch "abc12345" "POST" "/api/v1/pdf/merge"
        (.error "RuntimeError") 7).2 = [] := by
  decide

/--
**C2 amended** (corrected). When the downstream handler raises before
producing a response, the privacy logging middleware emits no log line at all
and re-propagates the exception unchanged (it does not swallow it); exactly
one structured line — correlation id, method, path, status, duration — is
emitted only when the downstream call returns a response.
-/
theorem c2_privacy_logging_dispatch (request_id method path e : String)
    (elapsed_ms : Nat) (resp : Response) :
    privacyLoggingDispatch request_id method path (.error e) elapsed_ms =
      (.error e, []) ∧
    (privacyLoggingDispatch request_id method path (.ok resp) elapsed_ms).2 =
      [{ request_id := request_id, method := method, path := path,
         status := resp.status, duration_ms := elapsed_ms }] := by
  exact ⟨rfl, rfl⟩

/-- Witness for C2's amended theorem at concrete inputs. -/
theorem c2_witness :
    privacyLoggingDispatch "abc" "GET" "/health" (.error "boom") 3 =
      (.error "boom", []) ∧
    (privacyLoggingDispatch "abc" "GET" "/health"
        (.ok { status := 200, headers := [] }) 3).2 =
      [{ request_id := "abc", method := "GET", path := "/health",
         status := 200, duration_ms := 3 }] :=
  ⟨(c2_privacy_logging_dispatch "abc" "GET" "/health" "boom" 3
      { status := 200, headers := [] }).1,
   (c2_privacy_logging_dispatch "abc" "GET" "/health" "boom" 3
      { status := 200, headers := [] }).2⟩

/--
**C3 counterexample.** The claim says invoking the termination-signal
handling path twice for one shutdown event runs the sweep-all cleanup exactly
once, guarded by a one-shot flag. On a concrete state with one tracked
resource, two successive invocations of `_signal_handler` run
`cleanup_temp_files` twice, not once: the module has no guard flag.
-/
theorem c3_counterexample :
    ¬ (signal_handler 15 (signal_handler 15
        { activeResources := ["r1"], sweepInvocations := 0, loggedCounts := [],
          exitCalls := [], signalsLogged := [] })).sweepInvocations = 1 := by
  decide

/--
**C3 amended** (corrected). Invoking the termination-signal handling path
twice in succession invokes the sweep-all cleanup twice — there is no
one-shot flag — but the first invocation empties the tracking set, so the
second sweep logs a count of zero: no resource is double-counted, no failure
occurs, and each invocation exits with code 0.
-/
theorem c3_double_signal (signum : Nat) (s : CleanupState) :
    (signal_handler signum (signal_handler signum s)).sweepInvocations =
      s.sweepInvocations + 2 ∧
    (signal_handler signum (signal_handler signum s)).activeResources = [] ∧
    (signal_handler signum (signal_handler signum s)).loggedCounts =
      s.loggedCounts ++ [s.activeResources.length, 0] ∧
    (signal_handler signum (signal_handler signum s)).exitCalls =
      s.exitCalls ++ [0, 0] ∧
    (signal_handler signum (signal_handler signum s)).signalsLogged =
      s.signalsLogged ++ [signum, signum] := by
  by_cases h : s.activeResources = [] <;>
    simp [signal_handler, cleanup_temp_files, h]

/--
**C4 counterexample.** The claim says the sweep-all operation returns the
number of handles swept. On a concrete state tracking one handle, the sweep
empties the set but its Python return value is `None` (the function is
annotated `-> None` and has no `return`), not the count `1`.
-/
theorem c4_counterexample :
    (cleanup_temp_files
        { activeResources := ["r1"], sweepInvocations := 0, loggedCounts := [],
          exitCalls := [], signalsLogged := [] }).1.activeResources = [] ∧
    (cleanup_temp_files
        { activeResources := ["r1"], sweepInvocations := 0, loggedCounts := [],
          exitCalls := [], signalsLogged := [] }).2 ≠ some 1 := by
  decide

/--
**C4 amended** (corrected). For every prior state of the tracking set,
`cleanup_temp_files` removes every handle (the set is empty afterwards) and
*logs* the number of handles swept, but it returns `None`, not that number.
-/
theorem c4_cleanup_sweeps_all (s : CleanupState) :
    (cleanup_temp_files s).1.activeResources = [] ∧
    (cleanup_temp_files s).1.loggedCounts =
      s.loggedCounts ++ [s.activeResources.length] ∧
    (cleanup_temp_files s).1.sweepInvocations = s.sweepInvocations + 1 ∧
    (cleanup_temp_files s).2 = none := by
  by_cases h : s.activeResources = [] <;> simp [cleanup_temp_files, h]

/-- If some uploaded file fails `validate_pdf`, the validation loop of
`api_merge_pdfs` fails with some `FileValidationError`. -/
theorem validateAllPdf_error_of_mem (files : List UploadFile)
    (hf : ∃ f ∈ files, ∃ e, validate_pdf f = .error e) :
    ∃ e, validateAllPdf files = .error e := by
  induction files with
  | nil => simp at hf
  | cons f fs ih =>
    rcases hf with ⟨g, hg, e, he⟩
    rcases List.mem_cons.mp hg with rfl | hmem
    · exact ⟨e, by rw [validateAllPdf, he]; rfl⟩
    · cases hv : validate_pdf f with
      | error e' => exact ⟨e', by rw [validateAllPdf, hv]; rfl⟩
      | ok c =>
        rcases ih ⟨g, hmem, e, he⟩ with ⟨e', he'⟩
        exact ⟨e', by rw [validateAllPdf, hv]; show _ >>= _ = _; rw [he']; rfl⟩

/--
**C5** (confirmed). PDF upload validation performs the type check, then the
size check, then the emptiness check, then the magic-byte check, in that
order, short-circuiting on the first failure: 415 when both the declared MIME
type and the filename extension fail, 413 for oversize (even if the payload
is also malformed), 400 for an empty payload, 400 for a payload not starting
with `%PDF-`; a fully valid payload is accepted unchanged. And a payload that
fails any check never reaches the transform: if any uploaded file fails
validation, `api_merge_pdfs` performs zero transform invocations.
-/
theorem c5_validation_order_and_gating (file : UploadFile)
    (files : List UploadFile) :
    (¬ allowedPdfType file.content_type ∧
      ¬ pyEndsWith (pyLower (file.filename.getD "")) ".pdf" →
      validate_pdf file = .error ⟨415, "Invalid file type: " ++
        (file.content_type.getD "None") ++ ". Expected PDF."⟩) ∧
    ((allowedPdfType file.content_type ∨
      pyEndsWith (pyLower (file.filename.getD "")) ".pdf") →
      file.content.length > MAX_UPLOAD_SIZE_BYTES →
      validate_pdf file =
        .error ⟨413, "File too large. Maximum size is 100MB."⟩) ∧
    ((allowedPdfType file.content_type ∨
      pyEndsWith (pyLower (file.filename.getD "")) ".pdf") →
      ¬ file.content.length > MAX_UPLOAD_SIZE_BYTES →
      file.content.length = 0 →
      validate_pdf file = .error ⟨400, "Empty file provided."⟩) ∧
    ((allowedPdfType file.content_type ∨
      pyEndsWith (pyLower (file.filename.getD "")) ".pdf") →
      ¬ file.content.length > MAX_UPLOAD_SIZE_BYTES →
      ¬ file.content.length = 0 →
      ¬ List.isPrefixOf pdfMagic file.content →
      validate_pdf file = .error ⟨400,
        "Invalid PDF file. File does not start with PDF header."⟩) ∧
    ((allowedPdfType file.content_type ∨
      pyEndsWith (pyLower (file.filename.getD "")) ".pdf") →
      ¬ file.content.length > MAX_UPLOAD_SIZE_BYTES →
      ¬ file.content.length = 0 →
      List.isPrefixOf pdfMagic file.content →
      validate_pdf file = .ok file.content) ∧
    ((∃ f ∈ files, ∃ e, validate_pdf f = .error e) →
      (api_merge_pdfs files).transformCalls = 0) := by
  refine ⟨?_, ?_, ?_, ?_, ?_, ?_⟩
  · rintro ⟨hA, hB⟩
    simp only [validate_pdf, hA, hB, if_true, if_false, ite_not, if_neg,
      not_false_eq_true]
    rfl
  · rintro hAB hS
    rcases hAB with hA | hB
    · simp only [validate_pdf, hA, hS, not_true, if_false, if_pos]
      rfl
    · by_cases hA : allowedPdfType file.content_type
      · simp only [validate_pdf, hA, hS, not_true, if_false, if_pos]
        rfl
      · simp only [validate_pdf, hA, hB, hS, not_false_eq_true, if_pos,
          if_true]
        rfl
  · rintro hAB hS hZ
    rcases hAB with hA | hB
    · simp [validate_pdf, hA, hS, hZ]
      try rfl
    · by_cases hA : allowedPdfType file.content_type
      · simp [validate_pdf, hA, hS, hZ]
        try rfl
      · simp [validate_pdf, hA, hB, hS, hZ]
        try rfl
  · rintro hAB hS hZ hM
    rcases hAB with hA | hB
    · simp [validate_pdf, hA, hS, hZ, hM]
      try rfl
    · by_cases hA : allowedPdfType file.content_type
      · simp [validate_pdf, hA, hS, hZ, hM]
        try rfl
      · simp [validate_pdf, hA, hB, hS, hZ, hM]
        try rfl
  · rintro hAB hS hZ hM
    rcases hAB with hA | hB
    · simp [validate_pdf, hA, hS, hZ, hM]
      try rfl
    · by_cases hA : allowedPdfType file.content_type
      · simp [validate_pdf, hA, hS, hZ, hM]
        try rfl
      · simp [validate_pdf, hA, hB, hS, hZ, hM]
        try rfl
  · intro hf
    by_cases hlen : files.length < 2
    · simp [api_merge_pdfs, hlen]
    · rcases validateAllPdf_error_of_mem files hf with ⟨e, he⟩
      simp [api_merge_pdfs, hlen, he]

/-- Witness for C5 at concrete uploads: the spec's example (a 10-byte file
declared as PDF without the `%PDF-` header) is rejected with 400 and the
merge transform is never invoked; a wrong-type upload gets 415; an empty
PDF-typed upload gets 400; a valid one is accepted. -/
theorem c5_witness :
    validate_pdf ⟨some "application/pdf", some "a.pdf",
        [1, 2, 3, 4, 5, 6, 7, 8, 9, 10]⟩ =
      .error ⟨400, "Invalid PDF file. File does not start with PDF header."⟩ ∧
    validate_pdf ⟨some "text/plain", some "a.txt", pdfMagic⟩ =
      .error ⟨415, "Invalid file type: text/plain. Expected PDF."⟩ ∧
    validate_pdf ⟨some "application/pdf", some "a.pdf", []⟩ =
      .error ⟨400, "Empty file provided."⟩ ∧
    validate_pdf ⟨some "application/pdf", some "a.pdf", pdfMagic⟩ =
      .ok pdfMagic ∧
    (api_merge_pdfs [⟨some "application/pdf", some "good.pdf", pdfMagic⟩,
        ⟨some "application/pdf", some "a.pdf",
          [1, 2, 3, 4, 5, 6, 7, 8, 9, 10]⟩]).transformCalls = 0 :=
  ⟨((c5_validation_order_and_gating
        ⟨some "application/pdf", some "a.pdf", [1, 2, 3, 4, 5, 6, 7, 8, 9, 10]⟩
        []).2.2.2.1) (by decide) (by decide) (by decide) (by decide),
   ((c5_validation_order_and_gating
        ⟨some "text/plain", some "a.txt", pdfMagic⟩ []).1)
      (by decide),
   ((c5_validation_order_and_gating
        ⟨some "application/pdf", some "a.pdf", []⟩ []).2.2.1)
      (by decide) (by decide) (by decide),
   ((c5_validation_order_and_gating
        ⟨some "application/pdf", some "a.pdf", pdfMagic⟩ []).2.2.2.2.1)
      (by decide) (by decide) (by decide) (by decide),
   ((c5_validation_order_and_gating ⟨none, none, []⟩
        [⟨some "application/pdf", some "good.pdf", pdfMagic⟩,
         ⟨some "application/pdf", some "a.pdf",
           [1, 2, 3, 4, 5, 6, 7, 8, 9, 10]⟩]).2.2.2.2.2)
      ⟨⟨some "application/pdf", some "a.pdf", [1, 2, 3, 4, 5, 6, 7, 8, 9, 10]⟩,
        by decide,
        ⟨⟨400, "Invalid PDF file. File does not start with PDF header."⟩,
          by decide⟩⟩⟩

/--
**C6 counterexample.** The claim says downloads never use the client-supplied
base name. A successful merge of two valid PDFs whose first file is named
`CONFIDENTIAL.pdf` answers with attachment filename
`CONFIDENTIAL_merged.pdf` — the client-supplied stem `CONFIDENTIAL` is
embedded verbatim (and is its leading component).
-/
theorem c6_counterexample :
    (api_merge_pdfs
        [⟨some "application/pdf", some "CONFIDENTIAL.pdf", pdfMagic⟩,
         ⟨some "application/pdf", some "b.pdf", pdfMagic⟩]).attachmentFilename =
      some "CONFIDENTIAL_merged.pdf" ∧
    pathStem "CONFIDENTIAL.pdf" = "CONFIDENTIAL" ∧
    List.isPrefixOf "CONFIDENTIAL".data "CONFIDENTIAL_merged.pdf".data = true := by
  refine ⟨by decide, by decide, by decide⟩

/--
**C6 amended** (corrected). For every successful file-returning operation the
`Content-Disposition` attachment filename is *derived from the
client-supplied filename*: merge answers with the first upload's stem
followed by `_merged.pdf` (falling back to `document` when no filename was
supplied), and rotate answers with the upload's name up to its last dot
followed by `_rotated.pdf`. The base name is the client's, not a generated
one.
-/
theorem c6_attachment_uses_client_base (files : List UploadFile)
    (file : UploadFile) (parse : Bytes → List Int) (pages : PagesArg)
    (degrees : Int) (nameM nameR : String) :
    ((api_merge_pdfs files).attachmentFilename = some nameM →
      nameM = pathStem (firstFilename files) ++ "_merged.pdf") ∧
    ((api_rotate_pages parse file pages degrees).attachmentFilename =
        some nameR →
      nameR = handlerBaseName file ++ "_rotated.pdf") := by
  constructor
  · intro h
    by_cases hlen : files.length < 2
    · simp [api_merge_pdfs, hlen] at h
    · cases hv : validateAllPdf files with
      | error e =>
        rw [api_merge_pdfs, if_neg hlen, hv] at h
        simp at h
      | ok bufs =>
        rw [api_merge_pdfs, if_neg hlen, hv] at h
        simp only [Option.some_inj] at h
        rw [← h, generate_filename]
        simp only [ne_eq, not_true_eq_false, if_false, if_neg]
        rw [String.append_assoc, String.append_assoc]
        congr 1
  · intro h
    cases hv : validate_pdf file with
    | error e =>
      rw [api_rotate_pages, hv] at h
      simp at h
    | ok content =>
      rw [api_rotate_pages, hv] at h
      cases hr : rotate_pages (parse content) pages degrees with
      | error e' => simp [hr] at h
      | ok doc =>
        simp only [hr, Option.some_inj] at h
        exact h.symm

/-- Witness for C6's amended theorem: concrete successful merge and rotate
requests carry the client-derived names. -/
theorem c6_witness :
    "CONFIDENTIAL_merged.pdf" =
      pathStem (firstFilename
        [⟨some "application/pdf", some "CONFIDENTIAL.pdf", pdfMagic⟩,
         ⟨some "application/pdf", some "b.pdf", pdfMagic⟩]) ++ "_merged.pdf" ∧
    "CONFIDENTIAL_rotated.pdf" =
      handlerBaseName
        ⟨some "application/pdf", some "CONFIDENTIAL.pdf", pdfMagic⟩ ++
        "_rotated.pdf" :=
  ⟨(c6_attachment_uses_client_base
      [⟨some "application/pdf", some "CONFIDENTIAL.pdf", pdfMagic⟩,
       ⟨some "application/pdf", some "b.pdf", pdfMagic⟩]
      ⟨some "application/pdf", some "CONFIDENTIAL.pdf", pdfMagic⟩
      (fun _ => [0]) .all 90 "CONFIDENTIAL_merged.pdf"
      "CONFIDENTIAL_rotated.pdf").1 (by decide),
   (c6_attachment_uses_client_base
      [⟨some "application/pdf", some "CONFIDENTIAL.pdf", pdfMagic⟩,
       ⟨some "application/pdf", some "b.pdf", pdfMagic⟩]
      ⟨some "application/pdf", some "CONFIDENTIAL.pdf", pdfMagic⟩
      (fun _ => [0]) .all 90 "CONFIDENTIAL_merged.pdf"
      "CONFIDENTIAL_rotated.pdf").2 (by decide)⟩

/--
**C7** (code_bug). The claim (and spec §7) say an out-of-range rotation value
is an `InvalidParameter`-kind failure, user-visible as 400. The service layer
does raise the typed `InvalidRotationError` for `degrees = 45`, but
`api_rotate_pages` has no handler for it: only `FileValidationError` and the
generic `except Exception` are caught, so the request is answered with 500
("Error rotating pages: ..."), not 400 — in contrast to the sibling endpoints
that map their typed service errors to 400.
-/
theorem c7_invalid_degrees_yields_500 :
    rotate_pages [0] .all 45 = .error (.invalidRotation
      "Degrees must be one of [90, 180, 270, -90, -180, -270]") ∧
    (api_rotate_pages (fun _ => [0])
        ⟨some "application/pdf", some "doc.pdf", pdfMagic⟩ .all 45).status =
      500 ∧
    (api_rotate_pages (fun _ => [0])
        ⟨some "application/pdf", some "doc.pdf", pdfMagic⟩ .all 45).status ≠
      400 := by
  refine ⟨by decide, by decide, by decide⟩

/--
**C8 counterexample.** The claim says an image upload passing the type, size
and emptiness checks whose content matches no allowed image signature is
rejected with a MalformedContent failure before any transform. On a concrete
5-byte payload declared `image/png`, `validate_image` *succeeds*, returning
the payload with detected format `"unknown"`: no failure is signalled.
-/
theorem c8_counterexample :
    validate_image ⟨some "image/png", some "x.png",
        [104, 101, 108, 108, 111]⟩ =
      .ok ([104, 101, 108, 108, 111], "unknown") ∧
    detect_image_format [104, 101, 108, 108, 111] = "unknown" := by
  refine ⟨by decide, by decide⟩

/--
**C8 amended** (corrected). For every image upload that passes the type, size
and emptiness checks but whose content does not start with the signature of
any allowed image format, validation *succeeds* and returns the payload with
detected format `"unknown"` — no MalformedContent failure is signalled (the
magic-byte rejection exists in the PDF/office/RTF validators, not the image
validator), and the payload proceeds to the transform.
-/
theorem c8_unknown_image_accepted (file : UploadFile)
    (htype : allowedImageType file.content_type ∨
      imageExtOk (pyLower (pathSuffix (file.filename.getD ""))))
    (hsize : ¬ file.content.length > MAX_UPLOAD_SIZE_BYTES)
    (hne : ¬ file.content.length = 0)
    (hmag : detect_image_format file.content = "unknown") :
    validate_image file = .ok (file.content, "unknown") := by
  rw [← hmag]
  rcases htype with hA | hB
  · simp [validate_image, hA, hsize, hne]
    try rfl
  · by_cases hA : allowedImageType file.content_type
    · simp [validate_image, hA, hsize, hne]
      try rfl
    · simp [validate_image, hA, hB, hsize, hne]
      try rfl

/-- Witness for C8's amended theorem at the concrete unknown-signature
upload. -/
theorem c8_witness :
    validate_image ⟨some "image/png", some "y.png", [1, 2, 3]⟩ =
      .ok ([1, 2, 3], "unknown") :=
  c8_unknown_image_accepted ⟨some "image/png", some "y.png", [1, 2, 3]⟩
    (Or.inl (by decide)) (by decide) (by decide) (by decide)

/--
**C9** (code_bug). The claim (and the function's own docstring: "Raises
EmptyResultError: If all pages would be deleted") tie `EmptyResult` to the
*distinct* requested pages covering the whole document. But the guard
`len(pages) >= total_pages` runs *before* deduplication: on a 2-page document
with `pages = [1, 1]`, the distinct pages are just `[1]` — deleting them
would leave one page (`eraseIdx` witness below) — yet the code raises
`EmptyResultError`.
-/
theorem c9_duplicate_pages_trigger_empty_result :
    delete_pages ([10, 20] : List Nat) [(1 : Int), 1] =
      .error (.emptyResult "Cannot delete all pages from PDF") ∧
    pySortedSetDesc [(1 : Int), 1] = [1] ∧
    ([10, 20] : List Nat).eraseIdx 0 = [20] := by
  refine ⟨by decide, by decide, by decide⟩

/-- Python `sorted` output is ascending. -/
theorem pySorted_sorted (l : List Int) : (pySorted l).Sorted (· ≤ ·) :=
  List.sorted_insertionSort _ l

/-- Sorting is invariant under permutation of the input. -/
theorem pySorted_perm_eq {l l' : List Int} (h : l.Perm l') :
    pySorted l = pySorted l' :=
  List.eq_of_perm_of_sorted
    ((List.perm_insertionSort _ l).trans
      (h.trans (List.perm_insertionSort _ l').symm))
    (pySorted_sorted l) (pySorted_sorted l')

/-- `validate_page_numbers` succeeds exactly when every page is in range. -/
theorem validate_page_numbers_ok (pages : List Int) (total : Nat)
    (h : ∀ p ∈ pages, 1 ≤ p ∧ p ≤ (total : Int)) :
    validate_page_numbers pages total = .ok () := by
  rw [validate_page_numbers]
  have hnone : pages.find? (fun p => p < 1 || p > (total : Int)) = none := by
    apply List.find?_eq_none.mpr
    intro x hx
    rcases h x hx with ⟨h1, h2⟩
    simp only [Bool.or_eq_true, decide_eq_true_eq, not_or]
    omega
  rw [hnone]

/--
**C10** (confirmed). For every parsed document and every non-empty in-range
page list in specific-mode split, `split_pdf` returns exactly one output
entry; its page sequence is the requested pages fetched in ascending
page-number order (`sorted(pages)`); and any permutation of the request
produces the same single entry — same name, same pages.
-/
theorem c10_split_specific_sorted (pdf : List Nat) (pages qs : List Int)
    (hne : pages ≠ [])
    (hrange : ∀ p ∈ pages, 1 ≤ p ∧ p ≤ (pdf.length : Int))
    (hperm : qs.Perm pages) :
    ∃ name,
      split_pdf pdf .specific none none none (some pages) =
        .ok [(name, (pySorted pages).filterMap
          (fun p => pdf.get? (p - 1).toNat))] ∧
      (pySorted pages).Sorted (· ≤ ·) ∧
      split_pdf pdf .specific none none none (some qs) =
        .ok [(name, (pySorted pages).filterMap
          (fun p => pdf.get? (p - 1).toNat))] := by
  have hq_ne : qs ≠ [] := by
    intro hq
    apply hne
    apply List.length_eq_zero.mp
    rw [← hperm.length_eq, hq]
    rfl
  have hrq : ∀ p ∈ qs, 1 ≤ p ∧ p ≤ (pdf.length : Int) := fun p hp =>
    hrange p (hperm.subset hp)
  have hv1 := validate_page_numbers_ok pages pdf.length hrange
  have hv2 := validate_page_numbers_ok qs pdf.length hrq
  have hsorteq : pySorted qs = pySorted pages := pySorted_perm_eq hperm
  by_cases hlen1 : pages.length = 1
  · rcases List.length_eq_one.mp hlen1 with ⟨a, ha⟩
    have hq : qs = [a] := List.perm_singleton.mp (ha ▸ hperm)
    refine ⟨"page_" ++ toString a ++ ".pdf", ?_, pySorted_sorted pages, ?_⟩
    · rw [split_pdf, ha]
      simp [validate_page_numbers_ok [a] pdf.length (ha ▸ hrange), ← ha, hv1]
      rw [ha]
      rfl
    · rw [split_pdf, hq]
      simp [validate_page_numbers_ok [a] pdf.length (hq ▸ hrq)]
      rw [show pySorted pages = pySorted [a] from (ha ▸ rfl), ← hq, hsorteq]
  · have hqlen1 : ¬ qs.length = 1 := by rw [hperm.length_eq]; exact hlen1
    refine ⟨"pages_" ++ joinWith "_" ((pySorted pages).map toString) ++ ".pdf",
      ?_, pySorted_sorted pages, ?_⟩
    · rw [split_pdf]
      simp [hne, hv1, hlen1]
    · rw [split_pdf]
      simp [hq_ne, hv2, hqlen1, hsorteq]

/-- Witness for C10 on a concrete three-page document with the pages
requested out of order, and its permuted request. -/
theorem c10_witness :
    ∃ name,
      split_pdf [10, 20, 30] .specific none none none (some [3, 1]) =
        .ok [(name, (pySorted [3, 1]).filterMap
          (fun p => [10, 20, 30].get? (p - 1).toNat))] ∧
      (pySorted [3, 1]).Sorted (· ≤ ·) ∧
      split_pdf [10, 20, 30] .specific none none none (some [1, 3]) =
        .ok [(name, (pySorted [3, 1]).filterMap
          (fun p => [10, 20, 30].get? (p - 1).toNat))] :=
  c10_split_specific_sorted [10, 20, 30] [3, 1] [1, 3] (by decide)
    (by decide) (by decide)

end NoTracePDF
